import Mathlib

/-!
Verification of the geyser-grpc-connector core: the fastest-wins block
multiplexer (`grpcmultiplex_fastestwins.rs`) and the broadcast fan-out
(`grpc_stream_utils.rs`).  The Rust async streams are embedded shallowly:
a stream is a (lazy) sequence, embedded as a `List` of its items; the
per-source reconnecting stream is embedded as its state-machine step
function driven by the results of the awaited operations; panics become
explicit error values.
-/

namespace GeyserGrpc

/-! ## Data model (yellowstone proto messages, shallowly embedded) -/

/-- `SubscribeUpdateBlock`: carries at least a slot and a transactions
payload (payload opaque; embedded as a list of naturals distinguishing
blocks from different sources). -/
structure SubscribeUpdateBlock where
  slot : Nat
  transactions : List Nat
deriving DecidableEq, Repr

/-- `SubscribeUpdateBlockMeta`: carries at least a slot. -/
structure SubscribeUpdateBlockMeta where
  slot : Nat
deriving DecidableEq, Repr

/-- The `update_oneof` variants of a geyser `SubscribeUpdate` that the
multiplexer distinguishes: a Block, a BlockMeta, or anything else. -/
inductive UpdateOneof where
  | block (b : SubscribeUpdateBlock)
  | blockMeta (m : SubscribeUpdateBlockMeta)
  | otherVariant
deriving DecidableEq, Repr

/-- A geyser `SubscribeUpdate`; the oneof field is optional as in proto3. -/
structure SubscribeUpdate where
  update_oneof : Option UpdateOneof
deriving DecidableEq, Repr

/-- The slot carried by an update; `0` (the sentinel, strictly below every
real slot) when the variant carries none. -/
def updateSlot (u : SubscribeUpdate) : Nat :=
  match u.update_oneof with
  | some (.block b) => b.slot
  | some (.blockMeta m) => m.slot
  | some .otherVariant => 0
  | none => 0

/-- solana-sdk `CommitmentLevel` variants relevant to the multiplexer
(the catch-all stands for the remaining deprecated variants). -/
inductive CommitmentLevel where
  | processed
  | confirmed
  | finalized
  | otherLevel
deriving DecidableEq, Repr

/-- solana-sdk `CommitmentConfig`. -/
structure CommitmentConfig where
  commitment : CommitmentLevel
deriving DecidableEq, Repr

/-- `CommitmentConfig::confirmed()`. -/
def CommitmentConfig.confirmedConfig : CommitmentConfig := ⟨.confirmed⟩

/-- `CommitmentConfig::finalized()`. -/
def CommitmentConfig.finalizedConfig : CommitmentConfig := ⟨.finalized⟩

/-- yellowstone proto `CommitmentLevel` (target of the solana-sdk →
yellowstone mapping in `create_geyser_reconnecting_stream`). -/
inductive YCommitmentLevel where
  | confirmed
  | finalized
deriving DecidableEq, Repr

/-- `GrpcSourceConfig` from `grpcmultiplex_fastestwins.rs` (the TLS
config is opaque; embedded as an optional natural-number token). -/
structure GrpcSourceConfig where
  label : String
  grpc_addr : String
  grpc_x_token : Option String
  tls_config : Option Nat
deriving DecidableEq, Repr

/-- `GrpcSourceConfig::new`: tls_config is always `None`. -/
def GrpcSourceConfig.new (label grpc_addr : String) (grpc_x_token : Option String) :
    GrpcSourceConfig :=
  { label := label, grpc_addr := grpc_addr, grpc_x_token := grpc_x_token, tls_config := none }

/-! ## Fastest-wins filter (`filter_blocks`)

An extractor is embedded by its `extract` function
`SubscribeUpdate → Slot → Option (Slot × Block)`; the block type `β` is the
associated type `E::Block`. -/

/-- The loop body of `filter_blocks`, recursing over the merged input with
the mutable `current_slot` made explicit.  Mirrors lines 83–93 of
`grpcmultiplex_fastestwins.rs`: a `None` item yields nothing; a `Some update`
item is passed to `extract`; on `Some (new_slot, block)` the state becomes
`new_slot` and `block` is emitted. -/
def filterBlocksGo {β : Type} (extract : SubscribeUpdate → Nat → Option (Nat × β)) :
    Nat → List (Option SubscribeUpdate) → List β
  | _, [] => []
  | current_slot, none :: rest => filterBlocksGo extract current_slot rest
  | current_slot, some u :: rest =>
    match extract u current_slot with
    | none => filterBlocksGo extract current_slot rest
    | some (new_slot, block) => block :: filterBlocksGo extract new_slot rest

/-- `filter_blocks`: `current_slot` starts at 0. -/
def filter_blocks {β : Type} (extract : SubscribeUpdate → Nat → Option (Nat × β))
    (geyser_stream : List (Option SubscribeUpdate)) : List β :=
  filterBlocksGo extract 0 geyser_stream

/-- The extractor contract from the spec: `extract u s` returns
`some (n, b)` only when `n > s` and `n` is the slot of `b` (the slot being
read off by `bslot`). -/
def ExtractorContract {β : Type} (extract : SubscribeUpdate → Nat → Option (Nat × β))
    (bslot : β → Nat) : Prop :=
  ∀ u s n b, extract u s = some (n, b) → s < n ∧ bslot b = n

/-! ## Multiplex assembler (`create_multiplex`)

The Rust function panics on bad configuration, otherwise builds one
reconnecting stream per source, merges them fairly and pipes the merged
stream through `filter_blocks`.  The embedding takes the merged sequence as
an argument (the fair merge itself is scheduler-dependent) and returns
`Except` with the panic message in place of panicking. -/

/-- Panic message of the commitment-level assertion (line 43–46). -/
def commitmentPanicMsg : String := "Only CONFIRMED and FINALIZED is supported"

/-- Panic message of the empty-sources check (line 49–51). -/
def sourcesPanicMsg : String := "Must have at least one source"

/-- `create_multiplex`, checks in source order: first the commitment
assertion, then the at-least-one-source check, then (when both pass) the
merged connector output is piped through `filter_blocks`. -/
def create_multiplex {β : Type} (grpc_sources : List GrpcSourceConfig)
    (commitment_config : CommitmentConfig)
    (extract : SubscribeUpdate → Nat → Option (Nat × β))
    (merged : List (Option SubscribeUpdate)) : Except String (List β) :=
  if ¬(commitment_config = CommitmentConfig.confirmedConfig ∨
      commitment_config = CommitmentConfig.finalizedConfig) then
    .error commitmentPanicMsg
  else if grpc_sources.length < 1 then
    .error sourcesPanicMsg
  else
    .ok (filter_blocks extract merged)

/-! ## Interleavings

The merged input of `filter_blocks` is a fair interleaving of the per-source
sequences.  An interleaving is embedded by tagging each merged item with the
index of the source it came from: the tagged list projects to the merged
sequence, and restricting it to one tag recovers that source's sequence. -/

/-- The merged sequence underlying a tagged interleaving. -/
def mergedOf {α : Type} (tagged : List (Nat × α)) : List α :=
  tagged.map Prod.snd

/-- `tagged` is an interleaving of `sources`: every tag is a valid source
index and the subsequence with tag `i` is exactly source `i`. -/
def IsInterleavingOf {α : Type} (tagged : List (Nat × α)) (sources : List (List α)) : Prop :=
  (∀ p ∈ tagged, p.1 < sources.length) ∧
  ∀ i, (h : i < sources.length) →
    (tagged.filter (fun p => p.1 == i)).map Prod.snd = sources.get ⟨i, h⟩

/-- A source's slot sequence (under slot assignment `uslot`, `None` items
skipped) is non-decreasing. -/
def SourceSlotsNonDecreasing (uslot : SubscribeUpdate → Nat)
    (src : List (Option SubscribeUpdate)) : Prop :=
  List.Chain' (· ≤ ·) ((src.filterMap id).map uslot)

/-! ## Per-source reconnecting stream (`create_geyser_reconnecting_stream`)

The async stream is driven by a loop matching on a `ConnectionState` kept
outside the generator.  Each loop iteration awaits at most one operation
(joining the connect task, pulling the next stream item, or sleeping) and
yields one `Option SubscribeUpdate`.  The embedding gives the step function
of that loop: the result of the awaited operation is the step's input
event, and a panic becomes a `fatal` outcome. -/

/-- The solana-sdk → yellowstone commitment mapping at lines 136–140;
anything but Confirmed/Finalized panics. -/
def mapCommitmentLevel (commitment_config : CommitmentConfig) :
    Except String YCommitmentLevel :=
  match commitment_config.commitment with
  | .confirmed => .ok .confirmed
  | .finalized => .ok .finalized
  | _ => .error "Only CONFIRMED and FINALIZED is supported/suggested"

/-- The arguments of the `GeyserGrpcClient::connect_with_timeout` call made
by the spawned connect task (lines 160–162). -/
structure ConnectCall where
  addr : String
  token : Option String
  tlsConfig : Option Nat
  connectTimeoutSecs : Option Nat
  requestTimeoutSecs : Option Nat
  useCompression : Bool
deriving DecidableEq, Repr

/-- Block subscription filters (opaque descriptors, embedded as
association lists from names to opaque naturals as the HashMaps they are). -/
abbrev BlockFilterMap := List (String × Nat)

/-- BlockMeta subscription filters. -/
abbrev BlockMetaFilterMap := List (String × Nat)

/-- The arguments of the `subscribe_once` call made by the spawned connect
task once connected (lines 166–177). -/
structure SubscribeCall where
  accounts : List (String × Nat)
  slots : List (String × Nat)
  transactions : List (String × Nat)
  entries : List (String × Nat)
  blocksFilter : BlockFilterMap
  blockmetaFilter : BlockMetaFilterMap
  commitment : Option YCommitmentLevel
  accountsDataSlice : List Nat
  pingRequest : Option Nat
deriving DecidableEq, Repr

/-- The task spawned in the `NotConnected` branch, described by the two
calls it makes: connect, then (only on connect success) subscribe. -/
structure GeyserConnectTask where
  connect : ConnectCall
  subscribe : SubscribeCall
deriving DecidableEq, Repr

/-- Builds the spawned task's call description from the source config, the
cloned filters and the mapped commitment level (lines 153–181): connect
with the source's address, token and TLS config, both timeouts 2 s,
compression off; subscribe with empty account/slot/transaction/entry
filters, the given block and blockmeta filters, the mapped commitment
level, and defaults elsewhere. -/
def connectionTask (grpc_source : GrpcSourceConfig)
    (blocks_filters : BlockFilterMap × BlockMetaFilterMap)
    (commitment_level : YCommitmentLevel) : GeyserConnectTask :=
  { connect :=
      { addr := grpc_source.grpc_addr
        token := grpc_source.grpc_x_token
        tlsConfig := grpc_source.tls_config
        connectTimeoutSecs := some 2
        requestTimeoutSecs := some 2
        useCompression := false }
    subscribe :=
      { accounts := []
        slots := []
        transactions := []
        entries := []
        blocksFilter := blocks_filters.1
        blockmetaFilter := blocks_filters.2
        commitment := some commitment_level
        accountsDataSlice := []
        pingRequest := none } }

/-- The upstream environment the spawned task runs against: a connect
operation and a subscribe operation on the resulting client.  `γ` is the
client type, `σ` the subscribed stream type, errors are strings. -/
structure ConnectEnv (γ σ : Type) where
  connectOp : ConnectCall → Except String γ
  subscribeOp : γ → SubscribeCall → Except String σ

/-- The body of the spawned task (lines 158–180): run the connect call;
propagate its error with `?`; otherwise immediately run the subscribe
call on the obtained client. -/
def runConnectionTask {γ σ : Type} (env : ConnectEnv γ σ) (t : GeyserConnectTask) :
    Except String σ :=
  match env.connectOp t.connect with
  | .error e => .error e
  | .ok client => env.subscribeOp client t.subscribe

/-- `ConnectionState` (lines 116–121), parametrised by the stream type
`σ`; `Connecting` carries the spawned task (embedded by its call
description). -/
inductive ConnectionState (σ : Type) where
  | NotConnected
  | Connecting (task : GeyserConnectTask)
  | Ready (stream : σ)
  | WaitReconnect
deriving DecidableEq, Repr

/-- The result of the one awaited operation of a loop iteration:
`enterLoop` for the `NotConnected` branch (which awaits nothing);
`taskOkOk`/`taskOkErr`/`taskJoinErr` for joining the connect task;
`itemOk`/`itemErr`/`streamEnd` for `next()` on the subscribed stream;
`slept` for the backoff sleep. -/
inductive ConnEvent (σ : Type) where
  | enterLoop
  | taskOkOk (stream : σ)
  | taskOkErr
  | taskJoinErr
  | itemOk (u : SubscribeUpdate)
  | itemErr
  | streamEnd
  | slept
deriving DecidableEq, Repr

/-- One loop iteration's outcome: the next state, the yielded value, and
the seconds slept during the iteration — or a panic. -/
inductive StepOutcome (σ : Type) where
  | next (state : ConnectionState σ) (yielded : Option SubscribeUpdate) (sleptSecs : Nat)
  | fatal (msg : String)
deriving DecidableEq, Repr

/-- The loop body of `create_geyser_reconnecting_stream` (lines 148–230)
as a step function: `none` when the event is not the one the state awaits
(impossible in the driving loop).
`NotConnected` spawns the connect task and moves to `Connecting`, yielding
`None`.  `Connecting` moves to `Ready` on `Ok(Ok(stream))`, to
`WaitReconnect` on `Ok(Err(_))`, and panics on a join error.  `Ready`
yields `Some(update)` and stays on `Some(Ok(update))`; on `Some(Err(_))`
or end-of-stream it moves to `WaitReconnect`.  `WaitReconnect` sleeps 1 s
and moves to `NotConnected`.  Every branch except `Ready`'s item case
yields `None`. -/
def reconnectStep {σ : Type} (grpc_source : GrpcSourceConfig)
    (blocks_filters : BlockFilterMap × BlockMetaFilterMap)
    (commitment_level : YCommitmentLevel) :
    ConnectionState σ → ConnEvent σ → Option (StepOutcome σ)
  | .NotConnected, .enterLoop =>
    some (.next (.Connecting (connectionTask grpc_source blocks_filters commitment_level))
      none 0)
  | .Connecting _, .taskOkOk subscribed_stream =>
    some (.next (.Ready subscribed_stream) none 0)
  | .Connecting _, .taskOkErr => some (.next .WaitReconnect none 0)
  | .Connecting _, .taskJoinErr => some (.fatal "Task aborted - should not happen")
  | .Ready geyser_stream, .itemOk update_message =>
    some (.next (.Ready geyser_stream) (some update_message) 0)
  | .Ready _, .itemErr => some (.next .WaitReconnect none 0)
  | .Ready _, .streamEnd => some (.next .WaitReconnect none 0)
  | .WaitReconnect, .slept => some (.next .NotConnected none 1)
  | _, _ => none

/-- Result of driving the loop over a finite event trace. -/
inductive RunResult (σ : Type) where
  | ok (state : ConnectionState σ) (yields : List (Option SubscribeUpdate)) (sleptSecs : Nat)
  | fatal (msg : String)
  | stuck
deriving DecidableEq, Repr

/-- Drive the reconnecting-stream loop over a list of events, collecting
the yielded items and the total seconds slept. -/
def reconnectRun {σ : Type} (grpc_source : GrpcSourceConfig)
    (blocks_filters : BlockFilterMap × BlockMetaFilterMap)
    (commitment_level : YCommitmentLevel) :
    ConnectionState σ → List (ConnEvent σ) → RunResult σ
  | st, [] => .ok st [] 0
  | st, ev :: evs =>
    match reconnectStep grpc_source blocks_filters commitment_level st ev with
    | none => .stuck
    | some (.fatal msg) => .fatal msg
    | some (.next st' out secs) =>
      match reconnectRun grpc_source blocks_filters commitment_level st' evs with
      | .ok stFin outs total => .ok stFin (out :: outs) (secs + total)
      | .fatal msg => .fatal msg
      | .stuck => .stuck

/-- One full failed connect attempt: enter the loop, the connect task
reports a subscribe-level error, the backoff sleep elapses. -/
def failCycle (σ : Type) : List (ConnEvent σ) := [.enterLoop, .taskOkErr, .slept]

/-- `n` consecutive failed connect attempts. -/
def failCycles (σ : Type) (n : Nat) : List (ConnEvent σ) :=
  (List.replicate n (failCycle σ)).flatten

/-- Whether a step outcome is a panic. -/
def outcomeIsFatal {σ : Type} : Option (StepOutcome σ) → Bool
  | some (.fatal _) => true
  | _ => false

/-- Whether a state is `Connecting`. -/
def stateIsConnecting {σ : Type} : ConnectionState σ → Bool
  | .Connecting _ => true
  | _ => false

/-- Whether an event is a join error of the connect task. -/
def eventIsJoinErr {σ : Type} : ConnEvent σ → Bool
  | .taskJoinErr => true
  | _ => false

/-- Whether a state is `Ready`. -/
def stateIsReady {σ : Type} : ConnectionState σ → Bool
  | .Ready _ => true
  | _ => false

/-- The state a `next` outcome moves to, if any. -/
def outcomeState {σ : Type} : Option (StepOutcome σ) → Option (ConnectionState σ)
  | some (.next st _ _) => some st
  | _ => none

/-- Whether a step outcome moves into the `Ready` state. -/
def outcomeMovesToReady {σ : Type} (o : Option (StepOutcome σ)) : Bool :=
  match outcomeState o with
  | some st => stateIsReady st
  | none => false

/-! ## Broadcast fan-out (`channelize_stream`)

The broadcast channel is external (tokio); its send is embedded by its
contract: with at least one receiver attached the send succeeds and
returns the receiver count, with none it fails with `SendError` carrying
the payload back.  The forwarder task is embedded as a recursion over the
source sequence, the per-item receiver count supplied as a list alongside
the items. -/

/-- Channel capacity passed to `tokio::sync::broadcast::channel` (line 16). -/
def channelizeCapacity : Nat := 1000

/-- `broadcast::Sender::send` contract: `Ok(receiver count)` when at least
one receiver is attached, `Err(SendError(payload))` otherwise. -/
def broadcastSend {T : Type} (receivers : Nat) (payload : T) : Except T Nat :=
  if receivers = 0 then .error payload else .ok receivers

/-- How the forwarder task ends. -/
inductive ForwarderOutcome where
  | finished
  | panicked (msg : String)
deriving DecidableEq, Repr

/-- The forwarder loop of `channelize_stream` (lines 18–34): for each
source item, send it to the broadcast channel (`recvs` lists the receiver
count at each send); on `Ok` record the delivery, on `SendError` skip the
item and continue the loop; when the source sequence ends, panic.
Returns the delivered items, the number of items consumed, and the way
the task ended. -/
def channelizeRun {T : Type} : List T → List Nat → List T × Nat × ForwarderOutcome
  | [], _ => ([], 0, .panicked "channelizer task failed")
  | payload :: rest, recvs =>
    let tailRun := channelizeRun rest recvs.tail
    match broadcastSend (recvs.headD 0) payload with
    | .ok _ => (payload :: tailRun.1, tailRun.2.1 + 1, tailRun.2.2)
    | .error _ => (tailRun.1, tailRun.2.1 + 1, tailRun.2.2)

/-! ## Extractors

`ExtractBlock` and `ExtractBlockMeta` are declared in
`grpcmultiplex_fastestwins.rs` (lines 30–32) but their
`ExtractBlockFromStream` implementations are not part of these sources;
the `extract` bodies are modelled from the spec. -/

/-- Modelled from the spec: the `extract` of `ExtractBlock` (its
`ExtractBlockFromStream` implementation is absent from the sources) —
extracts the transactions-bearing Block variant, suppresses it unless its
slot is strictly greater than `current_slot` (the `new_slot > current_slot`
test inside `extract`), and reports the block's own slot as `new_slot`. -/
def extractBlockExtract (u : SubscribeUpdate) (current_slot : Nat) :
    Option (Nat × SubscribeUpdateBlock) :=
  match u.update_oneof with
  | some (.block b) => if current_slot < b.slot then some (b.slot, b) else none
  | _ => none

/-! ## Spec-side description of the filter step (for refinement)

The spec (§4.2) describes the fastest-wins filter per incoming item; the
following two definitions follow the spec's words, to be compared with the
code-derived `filter_blocks`. -/

/-- The filter step exactly as the spec words it: a `None` item leaves
`current_slot` unchanged and emits nothing; on `Some update`, if `extract`
returns `None` the state is unchanged and nothing is emitted, and if it
returns `Some (new_slot, block)` the state becomes `new_slot` and `block`
is emitted. -/
def filterStepSpec {β : Type} (extract : SubscribeUpdate → Nat → Option (Nat × β))
    (current_slot : Nat) (item : Option SubscribeUpdate) : Nat × Option β :=
  match item with
  | none => (current_slot, none)
  | some update =>
    match extract update current_slot with
    | none => (current_slot, none)
    | some (new_slot, block) => (new_slot, some block)

/-- Running the spec's step over the merged input in order, collecting the
emitted blocks. -/
def filterRunSpec {β : Type} (extract : SubscribeUpdate → Nat → Option (Nat × β)) :
    Nat → List (Option SubscribeUpdate) → List β
  | _, [] => []
  | current_slot, item :: rest =>
    match filterStepSpec extract current_slot item with
    | (next_slot, none) => filterRunSpec extract next_slot rest
    | (next_slot, some block) => block :: filterRunSpec extract next_slot rest

/-- A contract-violating extractor: extracts the Block variant but performs
no slot comparison at all, so it can report a `new_slot` at or below
`current_slot`. -/
def extractIgnoringSlot (u : SubscribeUpdate) (_current_slot : Nat) :
    Option (Nat × SubscribeUpdateBlock) :=
  match u.update_oneof with
  | some (.block b) => some (b.slot, b)
  | _ => none

/-- An update carrying a Block with the given slot and payload. -/
def blockUpdate (slot : Nat) (payload : List Nat) : SubscribeUpdate :=
  ⟨some (.block ⟨slot, payload⟩)⟩

/-- Whether an `Except` is in the error case. -/
def exceptIsError {ε α : Type} : Except ε α → Bool
  | .error _ => true
  | .ok _ => false

end GeyserGrpc

namespace GeyserGrpc

/-! ## Helper lemmas -/

/-- `filterBlocksGo` agrees with the spec-worded run from any state. -/
lemma filterBlocksGo_eq_runSpec {β : Type}
    (extract : SubscribeUpdate → Nat → Option (Nat × β)) :
    ∀ (input : List (Option SubscribeUpdate)) (s : Nat),
      filterBlocksGo extract s input = filterRunSpec extract s input := by
  intro input
  induction input with
  | nil => intro s; rfl
  | cons item rest ih =>
    intro s
    cases item with
    | none => simp [filterBlocksGo, filterRunSpec, filterStepSpec, ih]
    | some u =>
      cases h : extract u s with
      | none => simp [filterBlocksGo, filterRunSpec, filterStepSpec, h, ih]
      | some p =>
        obtain ⟨n, b⟩ := p
        simp [filterBlocksGo, filterRunSpec, filterStepSpec, h, ih]

/-- Under the extractor contract, every block produced from state `s` has
slot above `s` and the produced slots are strictly increasing. -/
lemma filterBlocksGo_strictMono {β : Type}
    (extract : SubscribeUpdate → Nat → Option (Nat × β)) (bslot : β → Nat)
    (hc : ExtractorContract extract bslot) :
    ∀ (input : List (Option SubscribeUpdate)) (s : Nat),
      (∀ b ∈ filterBlocksGo extract s input, s < bslot b) ∧
      (filterBlocksGo extract s input).Pairwise (fun b1 b2 => bslot b1 < bslot b2) := by
  intro input
  induction input with
  | nil => intro s; simp [filterBlocksGo]
  | cons item rest ih =>
    intro s
    cases item with
    | none => simpa [filterBlocksGo] using ih s
    | some u =>
      cases h : extract u s with
      | none => simpa [filterBlocksGo, h] using ih s
      | some p =>
        obtain ⟨n, b⟩ := p
        obtain ⟨hsn, hbn⟩ := hc u s n b h
        obtain ⟨ihAbove, ihPair⟩ := ih n
        constructor
        · intro b' hb'
          simp only [filterBlocksGo, h] at hb'
          rcases List.mem_cons.mp hb' with hb' | hb'
          · subst hb'; omega
          · exact lt_trans hsn (hbn ▸ ihAbove b' hb')
        · simp only [filterBlocksGo, h]
          exact List.Pairwise.cons (fun b' hb' => hbn ▸ ihAbove b' hb') ihPair

/-- The spec-modelled `ExtractBlock.extract` satisfies the extractor
contract with the block's own slot. -/
lemma extractBlockExtract_contract :
    ExtractorContract extractBlockExtract SubscribeUpdateBlock.slot := by
  intro u s n b h
  rcases u with ⟨_ | (bb | mm | _)⟩ <;> simp [extractBlockExtract] at h
  obtain ⟨hlt, hn, hb⟩ := h
  subst hn
  subst hb
  exact ⟨hlt, rfl⟩

/-! ## Claim theorems -/

/-- C2: `filter_blocks` maintains `current_slot` initialized to 0 and
processes each merged item in order exactly as specified: a `None` item
emits nothing and leaves `current_slot` unchanged; a `Some update` item
with `extract update current_slot = none` emits nothing and leaves
`current_slot` unchanged; with `extract update current_slot =
some (new_slot, block)` it sets `current_slot := new_slot` and emits
`block` — i.e. `filter_blocks` equals the run of the spec-worded step
`filterStepSpec` from state 0. -/
theorem filter_blocks_matches_spec_step {β : Type}
    (extract : SubscribeUpdate → Nat → Option (Nat × β))
    (input : List (Option SubscribeUpdate)) :
    filter_blocks extract input = filterRunSpec extract 0 input :=
  filterBlocksGo_eq_runSpec extract input 0

/-- C10: `filter_blocks` itself compares nothing: whenever `extract`
returns `some (new_slot, block)` the filter emits `block` and overwrites
`current_slot` with `new_slot`, with no `new_slot > current_slot`
requirement; and with the comparison-free extractor `extractIgnoringSlot`
(which violates the contract) the output can move backwards, i.e. fails to
be strictly increasing in slot. -/
theorem filter_blocks_no_slot_check {β : Type}
    (extract : SubscribeUpdate → Nat → Option (Nat × β))
    (s n : Nat) (u : SubscribeUpdate) (b : β) (rest : List (Option SubscribeUpdate))
    (h : extract u s = some (n, b)) :
    filterBlocksGo extract s (some u :: rest) = b :: filterBlocksGo extract n rest ∧
    ¬ ((filter_blocks extractIgnoringSlot
          [some (blockUpdate 5 []), some (blockUpdate 3 [])]).map
        SubscribeUpdateBlock.slot).Pairwise (· < ·) := by
  constructor
  · simp [filterBlocksGo, h]
  · decide

/-- Witness for C10: the concrete extractor `extractIgnoringSlot` returns
`some (3, block)` at `current_slot = 5`, and the filter emits the block
and moves `current_slot` down to 3. -/
theorem filter_blocks_no_slot_check_witness :
    filterBlocksGo extractIgnoringSlot 5 (some (blockUpdate 3 []) :: []) =
      ⟨3, []⟩ :: filterBlocksGo extractIgnoringSlot 3 [] :=
  (filter_blocks_no_slot_check extractIgnoringSlot 5 3 (blockUpdate 3 []) ⟨3, []⟩ [] rfl).1

/-- C1: for every interleaving of per-source sequences whose slot
sequences are non-decreasing, and every extractor satisfying the
extractor contract, the block sequence produced by `create_multiplex` is
strictly increasing in slot: any earlier-emitted block has a strictly
smaller slot than any later-emitted one. -/
theorem create_multiplex_strictly_increasing {β : Type}
    (grpc_sources : List GrpcSourceConfig) (commitment_config : CommitmentConfig)
    (extract : SubscribeUpdate → Nat → Option (Nat × β)) (bslot : β → Nat)
    (uslot : SubscribeUpdate → Nat)
    (updateSources : List (List (Option SubscribeUpdate)))
    (tagged : List (Nat × Option SubscribeUpdate)) (out : List β)
    (_hN : updateSources.length = grpc_sources.length)
    (_hI : IsInterleavingOf tagged updateSources)
    (_hmono : ∀ src ∈ updateSources, SourceSlotsNonDecreasing uslot src)
    (hc : ExtractorContract extract bslot)
    (hrun : create_multiplex grpc_sources commitment_config extract (mergedOf tagged) =
      .ok out) :
    out.Pairwise (fun b1 b2 => bslot b1 < bslot b2) := by
  unfold create_multiplex at hrun
  split at hrun
  · exact absurd hrun (by simp)
  · split at hrun
    · exact absurd hrun (by simp)
    · injection hrun with h
      subst h
      exact (filterBlocksGo_strictMono extract bslot hc (mergedOf tagged) 0).2

/-- Witness for C1: two sources A (slots 100, 102) and B (slot 101),
fairly interleaved, with the Block extractor; the multiplexed output is
the strictly increasing 100, 101, 102. -/
theorem create_multiplex_strictly_increasing_witness :
    ([⟨100, [1]⟩, ⟨101, [2]⟩, ⟨102, [1]⟩] :
      List SubscribeUpdateBlock).Pairwise (fun b1 b2 => b1.slot < b2.slot) :=
  create_multiplex_strictly_increasing
    [GrpcSourceConfig.new "A" "http://a" none, GrpcSourceConfig.new "B" "http://b" none]
    CommitmentConfig.confirmedConfig
    extractBlockExtract SubscribeUpdateBlock.slot updateSlot
    [[some (blockUpdate 100 [1]), some (blockUpdate 102 [1])], [some (blockUpdate 101 [2])]]
    [(0, some (blockUpdate 100 [1])), (1, some (blockUpdate 101 [2])),
      (0, some (blockUpdate 102 [1]))]
    [⟨100, [1]⟩, ⟨101, [2]⟩, ⟨102, [1]⟩]
    (by decide) (by unfold IsInterleavingOf; decide)
    (by intro src hsrc
        fin_cases hsrc <;>
          simp [SourceSlotsNonDecreasing, updateSlot, blockUpdate, List.chain'_cons])
    extractBlockExtract_contract rfl

/-- C3: `create_multiplex` fails fatally at construction exactly when the
sources list is empty or the commitment level is neither Confirmed nor
Finalized; with level Processed the result is the commitment assertion's
panic (raised before any source connector exists), for every sources
list. -/
theorem create_multiplex_precondition_iff {β : Type}
    (grpc_sources : List GrpcSourceConfig) (commitment_config : CommitmentConfig)
    (extract : SubscribeUpdate → Nat → Option (Nat × β))
    (merged : List (Option SubscribeUpdate)) :
    (exceptIsError (create_multiplex grpc_sources commitment_config extract merged) =
        true ↔
      grpc_sources = [] ∨
        ¬(commitment_config = CommitmentConfig.confirmedConfig ∨
          commitment_config = CommitmentConfig.finalizedConfig)) ∧
    create_multiplex grpc_sources ⟨CommitmentLevel.processed⟩ extract merged =
      .error commitmentPanicMsg := by
  constructor
  · rcases commitment_config with ⟨cl⟩
    rcases grpc_sources with _ | ⟨s0, ss⟩ <;> rcases cl <;>
      simp [create_multiplex, exceptIsError,
        CommitmentConfig.confirmedConfig, CommitmentConfig.finalizedConfig]
  · simp [create_multiplex, CommitmentConfig.confirmedConfig,
      CommitmentConfig.finalizedConfig]

/-- C4: the per-source connector implements exactly the specified step
function — `NotConnected` spawns the connect task and moves to
`Connecting` yielding `None`; `Connecting` moves to `Ready`/`None` on
`Ok(stream)`, to `WaitReconnect`/`None` on a subscribe error, and panics
on a join fault; `Ready` stays `Ready` yielding `Some(update)` on an item
and moves to `WaitReconnect`/`None` on a stream error or end-of-stream;
`WaitReconnect` moves to `NotConnected`/`None`; and no step out of
`NotConnected` ever lands directly in `Ready`. -/
theorem reconnecting_stream_state_machine {σ : Type} (cfg : GrpcSourceConfig)
    (f : BlockFilterMap × BlockMetaFilterMap) (cl : YCommitmentLevel) :
    reconnectStep cfg f cl (ConnectionState.NotConnected : ConnectionState σ)
        .enterLoop =
      some (.next (.Connecting (connectionTask cfg f cl)) none 0) ∧
    (∀ (t : GeyserConnectTask) (s : σ),
      reconnectStep cfg f cl (ConnectionState.Connecting t) (.taskOkOk s) =
        some (.next (.Ready s) none 0)) ∧
    (∀ t : GeyserConnectTask,
      reconnectStep cfg f cl (ConnectionState.Connecting t : ConnectionState σ)
          .taskOkErr =
        some (.next .WaitReconnect none 0)) ∧
    (∀ t : GeyserConnectTask,
      reconnectStep cfg f cl (ConnectionState.Connecting t : ConnectionState σ)
          .taskJoinErr =
        some (.fatal "Task aborted - should not happen")) ∧
    (∀ (s : σ) (u : SubscribeUpdate),
      reconnectStep cfg f cl (ConnectionState.Ready s) (.itemOk u) =
        some (.next (.Ready s) (some u) 0)) ∧
    (∀ s : σ, reconnectStep cfg f cl (ConnectionState.Ready s) .itemErr =
      some (.next .WaitReconnect none 0)) ∧
    (∀ s : σ, reconnectStep cfg f cl (ConnectionState.Ready s) .streamEnd =
      some (.next .WaitReconnect none 0)) ∧
    reconnectStep cfg f cl (ConnectionState.WaitReconnect : ConnectionState σ)
        .slept =
      some (.next .NotConnected none 1) ∧
    ∀ ev : ConnEvent σ,
      outcomeMovesToReady
        (reconnectStep cfg f cl ConnectionState.NotConnected ev) = false := by
  refine ⟨rfl, fun t s => rfl, fun t => rfl, fun t => rfl, fun s u => rfl,
    fun s => rfl, fun s => rfl, rfl, ?_⟩
  intro ev
  cases ev <;> rfl

/-- C5: the connector stream has no terminal outcome — every
subscribe-level error, stream-level error and end-of-stream moves to
`WaitReconnect` yielding `None`; `WaitReconnect` sleeps exactly 1 second
and returns to `NotConnected`; a step panics exactly when the spawned
connect task itself faulted; and for every `n`, after `n` failed connect
attempts the connector is back in `NotConnected` having slept `n` seconds
— there is no retry limit. -/
theorem reconnecting_stream_retries_forever {σ : Type} (cfg : GrpcSourceConfig)
    (f : BlockFilterMap × BlockMetaFilterMap) (cl : YCommitmentLevel) :
    (∀ t : GeyserConnectTask,
      reconnectStep cfg f cl (ConnectionState.Connecting t : ConnectionState σ)
          .taskOkErr =
        some (.next .WaitReconnect none 0)) ∧
    (∀ s : σ, reconnectStep cfg f cl (ConnectionState.Ready s) .itemErr =
      some (.next .WaitReconnect none 0)) ∧
    (∀ s : σ, reconnectStep cfg f cl (ConnectionState.Ready s) .streamEnd =
      some (.next .WaitReconnect none 0)) ∧
    reconnectStep cfg f cl (ConnectionState.WaitReconnect : ConnectionState σ)
        .slept =
      some (.next .NotConnected none 1) ∧
    (∀ (st : ConnectionState σ) (ev : ConnEvent σ),
      outcomeIsFatal (reconnectStep cfg f cl st ev) =
        (stateIsConnecting st && eventIsJoinErr ev)) ∧
    ∀ n : Nat,
      reconnectRun cfg f cl (ConnectionState.NotConnected : ConnectionState σ)
          (failCycles σ n) =
        .ok .NotConnected (List.replicate (3 * n) none) n := by
  refine ⟨fun t => rfl, fun s => rfl, fun s => rfl, rfl, ?_, ?_⟩
  · intro st ev
    cases st <;> cases ev <;> rfl
  · intro n
    induction n with
    | zero => rfl
    | succ n ih =>
      have hsplit : failCycles σ (n + 1) =
          ConnEvent.enterLoop :: ConnEvent.taskOkErr :: ConnEvent.slept ::
            failCycles σ n := by
        simp [failCycles, failCycle, List.replicate_succ]
      rw [hsplit]
      simp only [reconnectRun, reconnectStep, ih]
      have hrep : 3 * (n + 1) = 3 * n + 1 + 1 + 1 := by omega
      rw [hrep]
      simp [List.replicate_succ]
      omega

/-- C6: in `NotConnected` the connector spawns the task described by
`connectionTask`: a connect call with the source's endpoint, auth token
and TLS config, connect and request timeouts of exactly 2 seconds and
compression disabled, paired with a subscribe call that has empty
account, slot, transaction and entry filters, the extractor's block and
blockmeta filter descriptors verbatim, the mapped commitment level and
defaults elsewhere; the task only issues the subscribe call when the
connect call succeeds. -/
theorem reconnecting_stream_connect_call {σ γ : Type} (cfg : GrpcSourceConfig)
    (f : BlockFilterMap × BlockMetaFilterMap) (cl : YCommitmentLevel)
    (env : ConnectEnv γ σ) :
    reconnectStep cfg f cl (ConnectionState.NotConnected : ConnectionState σ)
        .enterLoop =
      some (.next (.Connecting (connectionTask cfg f cl)) none 0) ∧
    (connectionTask cfg f cl).connect =
      { addr := cfg.grpc_addr, token := cfg.grpc_x_token,
        tlsConfig := cfg.tls_config, connectTimeoutSecs := some 2,
        requestTimeoutSecs := some 2, useCompression := false } ∧
    (connectionTask cfg f cl).subscribe =
      { accounts := [], slots := [], transactions := [], entries := [],
        blocksFilter := f.1, blockmetaFilter := f.2, commitment := some cl,
        accountsDataSlice := [], pingRequest := none } ∧
    (∀ e, env.connectOp (connectionTask cfg f cl).connect = .error e →
      runConnectionTask env (connectionTask cfg f cl) = .error e) ∧
    (∀ client, env.connectOp (connectionTask cfg f cl).connect = .ok client →
      runConnectionTask env (connectionTask cfg f cl) =
        env.subscribeOp client (connectionTask cfg f cl).subscribe) := by
  refine ⟨rfl, rfl, rfl, ?_, ?_⟩
  · intro e he
    simp [runConnectionTask, he]
  · intro client hclient
    simp [runConnectionTask, hclient]

/-- Witness for C6: a concrete environment whose connect succeeds with
client 7 makes the task issue the subscribe call on that client; one
whose connect fails propagates the connect error. -/
theorem reconnecting_stream_connect_call_witness :
    runConnectionTask (⟨fun _ => .ok 7, fun client _ => .ok client⟩ : ConnectEnv Nat Nat)
        (connectionTask (GrpcSourceConfig.new "A" "http://a" none) ([], [])
          .confirmed) =
      .ok 7 ∧
    runConnectionTask
        (⟨fun _ => .error "refused", fun client _ => .ok client⟩ : ConnectEnv Nat Nat)
        (connectionTask (GrpcSourceConfig.new "A" "http://a" none) ([], [])
          .confirmed) =
      .error "refused" :=
  ⟨(reconnecting_stream_connect_call
      (GrpcSourceConfig.new "A" "http://a" none) ([], []) .confirmed
      ⟨fun _ => .ok 7, fun client _ => .ok client⟩).2.2.2.2 7 rfl,
   (reconnecting_stream_connect_call
      (GrpcSourceConfig.new "A" "http://a" none) ([], []) .confirmed
      ⟨fun _ => .error "refused", fun client _ => .ok client⟩).2.2.2.1 "refused" rfl⟩

/-- C7: the broadcast channel is created with capacity exactly 1000; the
forwarder consumes every source item (it is never blocked nor stopped by
a failed send), delivering exactly the items sent while at least one
receiver was attached and silently dropping those sent with none. -/
theorem channelize_capacity_and_forwarding {T : Type} (items : List T)
    (recvs : List Nat) (hlen : recvs.length = items.length) :
    channelizeCapacity = 1000 ∧
    (channelizeRun items recvs).2.1 = items.length ∧
    (channelizeRun items recvs).1 =
      ((items.zip recvs).filter (fun p => p.2 != 0)).map Prod.fst := by
  refine ⟨rfl, ?_, ?_⟩
  · clear hlen
    induction items generalizing recvs with
    | nil => rfl
    | cons x xs ih =>
      simp only [channelizeRun, broadcastSend]
      split <;> simp [ih]
  · induction items generalizing recvs with
    | nil => rfl
    | cons x xs ih =>
      cases recvs with
      | nil => simp at hlen
      | cons r rs =>
        simp only [List.length_cons] at hlen
        simp only [channelizeRun, broadcastSend, List.headD, List.tail]
        by_cases hr : r = 0
        · subst hr
          simp [ih rs (by omega)]
        · simp [hr, ih rs (by omega)]

/-- Witness for C7: three items with receiver counts 1, 0, 2 — all three
are consumed and exactly the first and third are delivered. -/
theorem channelize_capacity_and_forwarding_witness :
    channelizeCapacity = 1000 ∧
    (channelizeRun [10, 20, 30] [1, 0, 2]).2.1 = 3 ∧
    (channelizeRun [10, 20, 30] [1, 0, 2]).1 =
      ((([10, 20, 30] : List Nat).zip [1, 0, 2]).filter
        (fun p => p.2 != 0)).map Prod.fst :=
  channelize_capacity_and_forwarding [10, 20, 30] [1, 0, 2] rfl

/-- C8: whatever the source items and receiver counts, the forwarder task
of `channelize_stream` ends by panicking when the source sequence ends —
it never returns normally. -/
theorem channelize_forwarder_panics_at_end {T : Type} (items : List T)
    (recvs : List Nat) :
    (channelizeRun items recvs).2.2 = .panicked "channelizer task failed" := by
  induction items generalizing recvs with
  | nil => rfl
  | cons x xs ih =>
    simp only [channelizeRun, broadcastSend]
    split <;> simp [ih]

/-- C9: a Block update whose slot equals the already-reached
`current_slot` is suppressed by the `new_slot > current_slot` test inside
`extract`; consequently the filtered output never repeats a slot, and in
the concrete two-source race (A's slot-200 block arriving before B's)
exactly one block for slot 200 is emitted — A's. -/
theorem same_slot_first_wins :
    (∀ b : SubscribeUpdateBlock,
      extractBlockExtract ⟨some (.block b)⟩ b.slot = none) ∧
    (∀ input : List (Option SubscribeUpdate),
      ((filter_blocks extractBlockExtract input).map
        SubscribeUpdateBlock.slot).Pairwise (· ≠ ·)) ∧
    filter_blocks extractBlockExtract
        [some (blockUpdate 200 [1]), some (blockUpdate 200 [2])] =
      [⟨200, [1]⟩] := by
  refine ⟨?_, ?_, by decide⟩
  · intro b
    simp [extractBlockExtract]
  · intro input
    rw [List.pairwise_map]
    exact ((filterBlocksGo_strictMono extractBlockExtract SubscribeUpdateBlock.slot
      extractBlockExtract_contract input 0).2).imp (fun h => Nat.ne_of_lt h)

end GeyserGrpc
